import Mathlib

/-!
Shallow embedding of the subscription entitlement engine of the
jogolinga backend (services/subscriptionService.js, services/authService.js,
server.js).

Modelling conventions:
* Timestamps are `Nat` milliseconds since the epoch (`current_period_end`
  from the billing provider is in seconds and is multiplied by 1000 exactly
  as in the source).  `now` is passed explicitly to each operation.
* A row of the `subscriptions` table is `SubscriptionRow`; nullable columns
  are `Option`.  The store is a list of rows together with the next primary
  key to be assigned on insert (`Store`).  Supabase calls are modelled as
  pure operations on `Store`: `.select.eq('user_id',u).single()` is
  `List.find?`, `.update(...).eq(col,v)` is a `List.map` that rewrites the
  matching rows, `.upsert(..., onConflict 'user_id')` updates the matching
  row when one exists and appends a fresh row otherwise.
* Remote Stripe calls are modelled as explicit arguments: the retrieved
  checkout session / subscription object is passed in, and the
  `stripe.subscriptions.retrieve` call inside the resolver is a function
  argument `stripeQ : String → Except Unit StripeSubscription` whose
  `Except.error` case models any retrieval failure (timeout, not-found,
  network error).
* JS `x || d` on a nullable string field treats both null/undefined and the
  empty string as falsy; `jsOrString` reproduces this.
-/

/-- A subscription object as retrieved from the billing provider
(`stripe.subscriptions.retrieve` or the webhook event payload).  Only the
fields the source reads are modelled: `items.data[0]?.price?.recurring?.interval`
is flattened to `recurring_interval`, and the `metadata` keys `userId` and
`planId` to `metadata_userId` / `metadata_planId`. -/
structure StripeSubscription where
  id : String
  status : String
  current_period_end : Nat
  recurring_interval : Option String
  metadata_userId : Option String
  metadata_planId : Option String
  deriving DecidableEq, Repr

/-- A checkout session as retrieved with
`stripe.checkout.sessions.retrieve(sessionId, \x7bexpand: ['subscription','customer']\x7d)`.
`subscription` is the expanded subscription object when one is attached,
`customer` is the customer id (`session.customer.id || session.customer`). -/
structure CheckoutSession where
  client_reference_id : Option String
  payment_status : String
  mode : String
  subscription : Option StripeSubscription
  customer : String
  customer_email : Option String
  amount_total : Option Int
  metadata_planId : Option String
  deriving DecidableEq, Repr

/-- A row of the `subscriptions` table.  `id` is the primary key assigned by
the database on insert; nullable columns are `Option`. -/
structure SubscriptionRow where
  id : Nat
  user_id : String
  tier : String
  status : String
  expires_at : Option Nat
  billing_period : Option String
  plan_id : Option String
  stripe_customer_id : Option String
  stripe_subscription_id : Option String
  cancelled_at : Option Nat
  created_at : Option Nat
  updated_at : Option Nat
  starts_at : Option Nat
  payment_id : Option String
  deriving DecidableEq, Repr

/-- The `subscriptions` table: its rows plus the next primary key the
database will assign on insert. -/
structure Store where
  rows : List SubscriptionRow
  nextId : Nat
  deriving DecidableEq, Repr

/-- JS `x || d` for a nullable string: null/undefined and the empty string
are falsy. -/
def jsOrString (x : Option String) (d : String) : String :=
  match x with
  | some s => if s = "" then d else s
  | none => d

/-- Result shape of `verifyUserSubscription`.  The free / fallback branches
of the source return an object without a `stripeSubscriptionId` key, which
is `none` here. -/
structure SubscriptionStatus where
  isPremium : Bool
  tier : String
  status : String
  expiresAt : Option Nat
  billingPeriod : Option String
  planId : String
  stripeSubscriptionId : Option String
  deriving DecidableEq, Repr

/-- Lines 82-86 of subscriptionService.js: local activity is
`status === 'active'`, forced to false when `expires_at` is set and already
passed (`new Date() > new Date(expires_at)`). -/
def localIsActive (sub : SubscriptionRow) (now : Nat) : Bool :=
  let isActive := sub.status == "active"
  match sub.expires_at with
  | some e => if now > e then false else isActive
  | none => isActive

/-- Lines 121-129 of subscriptionService.js: the result object built from a
stored row and the computed activity flag. -/
def subscriptionResult (sub : SubscriptionRow) (isActive : Bool) : SubscriptionStatus :=
  { isPremium := isActive && sub.tier == "premium"
    tier := if isActive then sub.tier else "free"
    status := if isActive then "active" else "expired"
    expiresAt := sub.expires_at
    billingPeriod := sub.billing_period
    planId := jsOrString sub.plan_id (if sub.tier == "premium" then "premium_plan" else "free_plan")
    stripeSubscriptionId := sub.stripe_subscription_id }

/-- The result returned when no subscription row exists (lines 66-73) and by
the outer catch-all (lines 138-145). -/
def freeSubscriptionStatus : SubscriptionStatus :=
  { isPremium := false
    tier := "free"
    status := "active"
    expiresAt := none
    billingPeriod := none
    planId := "free_plan"
    stripeSubscriptionId := none }

/-- The free/active row inserted when no subscription exists (lines 57-64);
columns absent from the insert payload are null. -/
def freeSubscriptionRow (userId : String) (now : Nat) (id : Nat) : SubscriptionRow :=
  { id := id
    user_id := userId
    tier := "free"
    status := "active"
    expires_at := none
    billing_period := none
    plan_id := none
    stripe_customer_id := none
    stripe_subscription_id := none
    cancelled_at := none
    created_at := some now
    updated_at := none
    starts_at := none
    payment_id := none }

/-- `verifyUserSubscription(userId)` (lines 42-147): fetch the row for
`userId`; if absent, insert a free/active row and answer non-premium;
otherwise compute local activity, consult Stripe only when a
`stripe_subscription_id` is set and the row is locally active, persist the
corrected status/expiry when Stripe disagrees, and fall back to the local
data when the Stripe call fails.  Returns the answer and the resulting
store. -/
def verifyUserSubscription (userId : String) (now : Nat)
    (stripeQ : String → Except Unit StripeSubscription)
    (s : Store) : SubscriptionStatus × Store :=
  match s.rows.find? (fun r => r.user_id == userId) with
  | none =>
      (freeSubscriptionStatus,
       { rows := s.rows ++ [freeSubscriptionRow userId now s.nextId], nextId := s.nextId + 1 })
  | some sub =>
      let isActive := localIsActive sub now
      match sub.stripe_subscription_id with
      | some sid =>
          if isActive then
            match stripeQ sid with
            | Except.ok ss =>
                let stripeIsActive := ss.status == "active" || ss.status == "trialing"
                let s' :=
                  if isActive != stripeIsActive then
                    { s with rows := s.rows.map (fun r =>
                        if r.user_id == userId then
                          { r with
                            status := if stripeIsActive then "active" else "cancelled"
                            expires_at := some (if stripeIsActive then ss.current_period_end * 1000 else now) }
                        else r) }
                  else s
                (subscriptionResult sub stripeIsActive, s')
            | Except.error _ => (subscriptionResult sub isActive, s)
          else (subscriptionResult sub isActive, s)
      | none => (subscriptionResult sub isActive, s)

/-- The argument object of `updateUserSubscription` (lines 317-350).
`stripeCustomerId` is the only field a caller may leave undefined
(`handleSubscriptionUpdate` does not pass it); an undefined property is
dropped from the upsert payload, so the column is left unchanged when an
existing row is updated and null when a new row is inserted. -/
structure UpdateData where
  stripeCustomerId : Option String
  stripeSubscriptionId : String
  tier : String
  status : String
  expiresAt : Nat
  planId : String
  billingPeriod : String
  deriving DecidableEq, Repr

/-- The row written by the upsert of `updateUserSubscription` over an
existing row `r` (`onConflict: 'user_id'`, lines 321-337): every column of
the payload is overwritten, columns not in the payload (`cancelled_at`,
`created_at`, ...) keep their values, and `stripe_customer_id` is only
overwritten when the caller supplied it. -/
def upsertRow (d : UpdateData) (now : Nat) (r : SubscriptionRow) : SubscriptionRow :=
  { r with
    stripe_customer_id :=
      match d.stripeCustomerId with
      | some c => some c
      | none => r.stripe_customer_id
    stripe_subscription_id := some d.stripeSubscriptionId
    tier := d.tier
    status := d.status
    expires_at := some d.expiresAt
    plan_id := some d.planId
    billing_period := some d.billingPeriod
    updated_at := some now }

/-- The row inserted by the upsert of `updateUserSubscription` when no row
for the user exists; columns absent from the payload are null. -/
def upsertNewRow (userId : String) (d : UpdateData) (now : Nat) (id : Nat) : SubscriptionRow :=
  { id := id
    user_id := userId
    tier := d.tier
    status := d.status
    expires_at := some d.expiresAt
    billing_period := some d.billingPeriod
    plan_id := some d.planId
    stripe_customer_id := d.stripeCustomerId
    stripe_subscription_id := some d.stripeSubscriptionId
    cancelled_at := none
    created_at := none
    updated_at := some now
    starts_at := none
    payment_id := none }

/-- `updateUserSubscription(userId, subscriptionData)` (lines 317-350): a
single upsert on the `subscriptions` table keyed by `user_id`. -/
def updateUserSubscription (userId : String) (d : UpdateData) (now : Nat) (s : Store) : Store :=
  if s.rows.any (fun r => r.user_id == userId) then
    { s with rows := s.rows.map (fun r => if r.user_id == userId then upsertRow d now r else r) }
  else
    { rows := s.rows ++ [upsertNewRow userId d now s.nextId], nextId := s.nextId + 1 }

/-- Result shape of `verifyPayment`.  The source returns ad hoc objects with
different keys on the completed and pending paths; keys a path does not set
are `none`.  `amountTotal` is `session.amount_total / 100` (idealized as an
exact rational; the source computes it with JS number division). -/
structure PaymentResult where
  status : String
  planId : Option String
  subscriptionId : Option String
  customerEmail : Option String
  amountTotal : Option Rat
  paymentStatus : Option String
  message : Option String
  deriving DecidableEq, Repr

/-- `verifyPayment(sessionId, userId)` (lines 260-314), applied to the
session object retrieved from the provider.  Rejects when the session's
`client_reference_id` differs from `userId` (the thrown message is rewrapped
by the outer catch); on `payment_status === 'paid'` upgrades the stored
subscription only for a subscription-mode session with an attached
subscription object, then reports completion; otherwise reports pending.
Returns the outcome together with the resulting store. -/
def verifyPayment (session : CheckoutSession) (userId : String) (now : Nat)
    (s : Store) : Except String PaymentResult × Store :=
  if session.client_reference_id ≠ some userId then
    (Except.error "Erreur lors de la vérification du paiement: Session non autorisée pour cet utilisateur", s)
  else if session.payment_status == "paid" then
    let completed : PaymentResult :=
      { status := "completed"
        planId := session.metadata_planId
        subscriptionId := session.subscription.map (fun ss => ss.id)
        customerEmail := session.customer_email
        amountTotal := session.amount_total.map (fun a => (a : Rat) / 100)
        paymentStatus := none
        message := none }
    if session.mode == "subscription" then
      match session.subscription with
      | some ss =>
          let s' := updateUserSubscription userId
            { stripeCustomerId := some session.customer
              stripeSubscriptionId := ss.id
              tier := "premium"
              status := "active"
              expiresAt := ss.current_period_end * 1000
              planId := jsOrString session.metadata_planId "premium_plan"
              billingPeriod := jsOrString ss.recurring_interval "monthly" } now s
          (Except.ok completed, s')
      | none => (Except.ok completed, s)
    else (Except.ok completed, s)
  else
    (Except.ok
      { status := "pending"
        planId := none
        subscriptionId := none
        customerEmail := none
        amountTotal := none
        paymentStatus := some session.payment_status
        message := some "Paiement en attente de confirmation" }, s)

/-- Webhook `customer.subscription.updated` handler (lines 425-448): drop
the event when `metadata.userId` is absent, otherwise upsert the premium
subscription derived from the event (no `stripeCustomerId` is passed). -/
def handleSubscriptionUpdate (sub : StripeSubscription) (now : Nat) (s : Store) : Store :=
  match sub.metadata_userId with
  | none => s
  | some userId =>
      updateUserSubscription userId
        { stripeCustomerId := none
          stripeSubscriptionId := sub.id
          tier := "premium"
          status := if sub.status == "active" then "active" else "cancelled"
          expiresAt := sub.current_period_end * 1000
          planId := jsOrString sub.metadata_planId "premium_plan"
          billingPeriod := jsOrString sub.recurring_interval "monthly" } now s

/-- Webhook `customer.subscription.deleted` handler (lines 451-474): drop
the event when `metadata.userId` is absent; otherwise mark cancelled with a
supabase update keyed on `stripe_subscription_id`. -/
def handleSubscriptionCancellation (sub : StripeSubscription) (now : Nat) (s : Store) : Store :=
  match sub.metadata_userId with
  | none => s
  | some _ =>
      { s with rows := s.rows.map (fun r =>
          if r.stripe_subscription_id == some sub.id then
            { r with status := "cancelled", cancelled_at := some now, updated_at := some now }
          else r) }

/-- The `adminSubscriptionData` object (authService.js lines 854-865)
inserted for an allow-listed admin with no existing row;
`stripe_customer_id`, `stripe_subscription_id` and `cancelled_at` are not in
the payload, hence null. -/
def adminSubscriptionData (userId : String) (now : Nat) (id : Nat) : SubscriptionRow :=
  { id := id
    user_id := userId
    tier := "premium"
    status := "active"
    expires_at := none
    billing_period := some "permanent"
    plan_id := some "premium_admin"
    stripe_customer_id := none
    stripe_subscription_id := none
    cancelled_at := none
    created_at := some now
    updated_at := some now
    starts_at := some now
    payment_id := some "admin_premium_permanent" }

/-- `setupAdminPremiumSubscription(user)` (authService.js lines 843-915):
look up the row by `user_id`; insert `adminSubscriptionData` when none
exists, otherwise update the existing row (matched by its primary key `id`)
to premium/active/permanent with the sentinel plan id and no expiry. -/
def setupAdminPremiumSubscription (userId : String) (now : Nat) (s : Store) : Store :=
  match s.rows.find? (fun r => r.user_id == userId) with
  | none =>
      { rows := s.rows ++ [adminSubscriptionData userId now s.nextId], nextId := s.nextId + 1 }
  | some existing =>
      { s with rows := s.rows.map (fun r =>
          if r.id == existing.id then
            { r with
              tier := "premium"
              status := "active"
              plan_id := some "premium_admin"
              billing_period := some "permanent"
              expires_at := none
              updated_at := some now }
          else r) }

/-- Sample rows and oracles used by the concrete witnesses below. -/
def failingStripeQ : String → Except Unit StripeSubscription := fun _ => Except.error ()

def premiumExpiredRow : SubscriptionRow :=
  { id := 1
    user_id := "u1"
    tier := "premium"
    status := "active"
    expires_at := some 1000
    billing_period := some "monthly"
    plan_id := some "premium_plan"
    stripe_customer_id := none
    stripe_subscription_id := none
    cancelled_at := none
    created_at := none
    updated_at := none
    starts_at := none
    payment_id := none }

def stripeBackedRow : SubscriptionRow :=
  { premiumExpiredRow with
    id := 2
    user_id := "u2"
    expires_at := some 9000
    stripe_customer_id := some "cus_2"
    stripe_subscription_id := some "sub_2" }

def cancelledPendingRow : SubscriptionRow :=
  { premiumExpiredRow with
    id := 3
    user_id := "u3"
    status := "cancelled"
    expires_at := some 9000
    cancelled_at := some 100 }

def sampleSubscriptionEvent : StripeSubscription :=
  { id := "sub_2"
    status := "canceled"
    current_period_end := 50
    recurring_interval := some "monthly"
    metadata_userId := none
    metadata_planId := some "premium_monthly" }

def paidNonSubscriptionSession : CheckoutSession :=
  { client_reference_id := some "u1"
    payment_status := "paid"
    mode := "payment"
    subscription := none
    customer := "cus_1"
    customer_email := some "u1@example.com"
    amount_total := some 999
    metadata_planId := some "premium_monthly" }

/-- A `List.map` whose function fixes every element it has already produced
is idempotent. -/
theorem map_idem_of_pointwise {α : Type} (f : α → α) (hf : ∀ a, f (f a) = f a)
    (l : List α) : (l.map f).map f = l.map f := by
  induction l with
  | nil => rfl
  | cons a t ih => simp [ih, hf a]

/-- Mapping a predicate-preserving function does not change `List.any`. -/
theorem any_map_of_pred {α : Type} (f : α → α) (p : α → Bool)
    (hf : ∀ a, p (f a) = p a) (l : List α) : (l.map f).any p = l.any p := by
  induction l with
  | nil => rfl
  | cons a t ih => simp [ih, hf a]

/-- Mapping a predicate-preserving function commutes with `List.find?`. -/
theorem find?_map_of_pred {α : Type} (f : α → α) (p : α → Bool)
    (hf : ∀ a, p (f a) = p a) (l : List α) :
    (l.map f).find? p = (l.find? p).map f := by
  induction l with
  | nil => rfl
  | cons a t ih =>
      by_cases h : p a
      · rw [List.map_cons, List.find?_cons_of_pos _ (by rw [hf a]; exact h),
          List.find?_cons_of_pos _ h, Option.map_some']
      · rw [List.map_cons,
          List.find?_cons_of_neg _ (by rw [hf a]; exact h),
          List.find?_cons_of_neg _ h, ih]

/-- A conditional rewrite maps a list to itself when no element matches. -/
theorem map_ite_eq_self_of_no_match {α : Type} (p : α → Bool) (f : α → α)
    (l : List α) (h : ∀ a ∈ l, p a = false) :
    l.map (fun a => if p a then f a else a) = l := by
  induction l with
  | nil => rfl
  | cons a t ih =>
      simp only [List.map_cons, h a (List.mem_cons_self a t)]
      rw [if_neg (by simp), ih (fun x hx => h x (List.mem_cons_of_mem a hx))]

/-- The row written by the upsert is a fixed point of the upsert. -/
theorem upsertRow_idem (d : UpdateData) (now : Nat) (r : SubscriptionRow) :
    upsertRow d now (upsertRow d now r) = upsertRow d now r := by
  cases h : d.stripeCustomerId <;> simp [upsertRow, h]

/-- The row freshly inserted by the upsert is a fixed point of the upsert. -/
theorem upsertRow_upsertNewRow (userId : String) (d : UpdateData) (now : Nat) (id : Nat) :
    upsertRow d now (upsertNewRow userId d now id) = upsertNewRow userId d now id := by
  cases h : d.stripeCustomerId <;> simp [upsertRow, upsertNewRow, h]

/-- The upsert preserves `user_id`. -/
theorem upsertRow_user_id (d : UpdateData) (now : Nat) (r : SubscriptionRow) :
    (upsertRow d now r).user_id = r.user_id := rfl

/-- The upsert of `updateUserSubscription` is idempotent. -/
theorem updateUserSubscription_idem (userId : String) (d : UpdateData) (now : Nat) (s : Store) :
    updateUserSubscription userId d now (updateUserSubscription userId d now s) =
      updateUserSubscription userId d now s := by
  have hpres : ∀ r : SubscriptionRow,
      (((if r.user_id == userId then upsertRow d now r else r).user_id == userId)) =
        (r.user_id == userId) := by
    intro r
    by_cases h : r.user_id == userId <;> simp [h, upsertRow_user_id]
  have hfix : ∀ r : SubscriptionRow,
      (if ((if r.user_id == userId then upsertRow d now r else r).user_id == userId) then
          upsertRow d now (if r.user_id == userId then upsertRow d now r else r)
        else (if r.user_id == userId then upsertRow d now r else r)) =
        (if r.user_id == userId then upsertRow d now r else r) := by
    intro r
    by_cases h : r.user_id == userId <;>
      simp [h, upsertRow_user_id, upsertRow_idem]
  unfold updateUserSubscription
  by_cases h : s.rows.any (fun r => r.user_id == userId)
  · rw [if_pos h]
    have hany : ((s.rows.map (fun r => if r.user_id == userId then upsertRow d now r else r)).any
        (fun r => r.user_id == userId)) = true := by
      rw [any_map_of_pred _ _ hpres]; exact h
    simp only [hany, if_true]
    congr 1
    exact map_idem_of_pointwise _ hfix s.rows
  · rw [if_neg h]
    have hnew : ((upsertNewRow userId d now s.nextId).user_id == userId) = true := by
      simp [upsertNewRow]
    have hany : ((s.rows ++ [upsertNewRow userId d now s.nextId]).any
        (fun r => r.user_id == userId)) = true := by
      rw [List.any_append]
      simp [hnew]
    simp only [hany, if_true]
    have hnone : ∀ r ∈ s.rows, (r.user_id == userId) = false := by
      intro r hr
      have := List.any_eq_false.mp (Bool.eq_false_iff.mpr h) r hr
      exact Bool.eq_false_iff.mpr this
    congr 1
    rw [List.map_append,
      map_ite_eq_self_of_no_match _ _ s.rows hnone]
    simp [hnew, upsertRow_upsertNewRow]

/-- Local activity is false whenever the stored status is not `active` or
the stored expiry has passed. -/
theorem localIsActive_eq_false (r : SubscriptionRow) (now : Nat)
    (h : r.status ≠ "active" ∨ ∃ e, r.expires_at = some e ∧ e < now) :
    localIsActive r now = false := by
  rcases h with h | ⟨e, he, hlt⟩
  · have hb : (r.status == "active") = false := beq_eq_false_iff_ne.mpr h
    unfold localIsActive
    cases hx : r.expires_at <;> simp [hb]
  · unfold localIsActive
    rw [he]
    simp [hlt]

/-- C1: a checkout session whose recorded originating account differs from
the `accountId` argument makes `verifyPayment` reject with an error and
leave the store untouched. -/
theorem verifyPayment_rejects_foreign_session
    (session : CheckoutSession) (origin userId : String) (now : Nat) (s : Store)
    (horigin : session.client_reference_id = some origin) (hne : origin ≠ userId) :
    verifyPayment session userId now s =
      (Except.error "Erreur lors de la vérification du paiement: Session non autorisée pour cet utilisateur", s) := by
  unfold verifyPayment
  rw [if_pos]
  rw [horigin]
  intro hc
  exact hne (Option.some.inj hc)

/-- Concrete witness for C1. -/
theorem verifyPayment_rejects_foreign_session_witness :
    verifyPayment { paidNonSubscriptionSession with client_reference_id := some "attacker" }
        "u1" 0 { rows := [premiumExpiredRow], nextId := 2 } =
      (Except.error "Erreur lors de la vérification du paiement: Session non autorisée pour cet utilisateur",
       { rows := [premiumExpiredRow], nextId := 2 }) :=
  verifyPayment_rejects_foreign_session _ "attacker" "u1" 0 _ rfl (by decide)

/-- C2: processing the same `customer.subscription.updated` webhook event
twice, from any store state, leaves the store exactly as processing it
once. -/
theorem handleSubscriptionUpdate_idempotent (sub : StripeSubscription) (now : Nat) (s : Store) :
    handleSubscriptionUpdate sub now (handleSubscriptionUpdate sub now s) =
      handleSubscriptionUpdate sub now s := by
  unfold handleSubscriptionUpdate
  cases h : sub.metadata_userId with
  | none => rfl
  | some userId => exact updateUserSubscription_idem userId _ now s

/-- C3: when the subscription row exists and every provider query the
resolver could make fails, the resolution does not fail: it answers with
the entitlement computed from the stored row alone and leaves the store
untouched. -/
theorem resolve_provider_failure_falls_back
    (userId : String) (now : Nat) (stripeQ : String → Except Unit StripeSubscription)
    (s : Store) (r : SubscriptionRow)
    (hfind : s.rows.find? (fun x => x.user_id == userId) = some r)
    (hfail : ∀ sid, r.stripe_subscription_id = some sid → stripeQ sid = Except.error ()) :
    verifyUserSubscription userId now stripeQ s =
      (subscriptionResult r (localIsActive r now), s) := by
  cases hs : r.stripe_subscription_id with
  | none => simp [verifyUserSubscription, hfind, hs]
  | some sid =>
      by_cases ha : localIsActive r now
      · simp [verifyUserSubscription, hfind, hs, ha, hfail sid hs]
      · simp [verifyUserSubscription, hfind, hs, ha]

/-- Concrete witness for C3. -/
theorem resolve_provider_failure_falls_back_witness :
    verifyUserSubscription "u2" 500 failingStripeQ { rows := [stripeBackedRow], nextId := 3 } =
      (subscriptionResult stripeBackedRow (localIsActive stripeBackedRow 500),
       { rows := [stripeBackedRow], nextId := 3 }) :=
  resolve_provider_failure_falls_back "u2" 500 failingStripeQ _ stripeBackedRow rfl
    (fun _ _ => rfl)

/-- C4 counterexample: for the stored row `premiumExpiredRow`
(`tier = premium`, `status = active`, `expires_at = 1000` in the past at
`now = 2000`), the resolver reports `isPremium = false` but its reported
tier is `free`, not `premium` as the claim states. -/
theorem resolve_nonentitled_premium_tier_counterexample :
    ((verifyUserSubscription "u1" 2000 failingStripeQ
        { rows := [premiumExpiredRow], nextId := 2 }).1.isPremium = false) ∧
    premiumExpiredRow.tier = "premium" ∧
    premiumExpiredRow.status = "active" ∧
    premiumExpiredRow.expires_at = some 1000 ∧
    ¬ ((verifyUserSubscription "u1" 2000 failingStripeQ
        { rows := [premiumExpiredRow], nextId := 2 }).1.tier = "premium") := by
  decide

/-- C4 amended: a stored premium row that is not entitled (status not
`active`, or expiry passed) is reported non-entitled with tier coerced to
`free` (not `premium`): line 123 of the source maps the reported tier to
`free` whenever the row is inactive. -/
theorem resolve_nonentitled_premium_reports_free
    (userId : String) (now : Nat) (stripeQ : String → Except Unit StripeSubscription)
    (s : Store) (r : SubscriptionRow)
    (hfind : s.rows.find? (fun x => x.user_id == userId) = some r)
    (htier : r.tier = "premium")
    (hne : r.status ≠ "active" ∨ ∃ e, r.expires_at = some e ∧ e < now) :
    (verifyUserSubscription userId now stripeQ s).1.isPremium = false ∧
    (verifyUserSubscription userId now stripeQ s).1.tier = "free" := by
  have ha : localIsActive r now = false := localIsActive_eq_false r now hne
  have hres : verifyUserSubscription userId now stripeQ s =
      (subscriptionResult r (localIsActive r now), s) := by
    cases hs : r.stripe_subscription_id with
    | none => simp [verifyUserSubscription, hfind, hs]
    | some sid => simp [verifyUserSubscription, hfind, hs, ha]
  rw [hres, ha]
  exact ⟨rfl, rfl⟩

/-- Concrete witness for the amended C4. -/
theorem resolve_nonentitled_premium_reports_free_witness :
    ((verifyUserSubscription "u1" 2000 failingStripeQ
        { rows := [premiumExpiredRow], nextId := 2 }).1.isPremium = false) ∧
    ((verifyUserSubscription "u1" 2000 failingStripeQ
        { rows := [premiumExpiredRow], nextId := 2 }).1.tier = "free") :=
  resolve_nonentitled_premium_reports_free "u1" 2000 failingStripeQ _ premiumExpiredRow
    rfl rfl (Or.inr ⟨1000, rfl, by decide⟩)

/-- C5 counterexample: a `customer.subscription.deleted` event whose
metadata carries no userId (`sampleSubscriptionEvent`) is dropped: the store
still holds a row whose `stripe_subscription_id` matches the event, yet
after processing that row is unchanged — not marked cancelled, no
`cancelled_at` stamp. -/
theorem cancellation_without_metadata_counterexample :
    handleSubscriptionCancellation sampleSubscriptionEvent 3000
        { rows := [stripeBackedRow], nextId := 3 } =
      { rows := [stripeBackedRow], nextId := 3 } ∧
    stripeBackedRow.stripe_subscription_id = some sampleSubscriptionEvent.id ∧
    sampleSubscriptionEvent.metadata_userId = none ∧
    ¬ (stripeBackedRow.status = "cancelled") ∧
    stripeBackedRow.cancelled_at = none := by
  decide

/-- C5 amended: for a deletion/cancellation event that does carry account
metadata (a userId), every stored row whose `stripe_subscription_id`
matches the event's subscription id — regardless of its `user_id` — is
marked `status = cancelled` with `cancelledAt` stamped, and every
non-matching row is untouched; an event without account metadata is
dropped with no mutation. -/
theorem cancellation_marks_by_subscription_ref
    (sub : StripeSubscription) (now : Nat) (s : Store) (u : String)
    (hmeta : sub.metadata_userId = some u) :
    (∀ r ∈ s.rows, r.stripe_subscription_id = some sub.id →
        { r with status := "cancelled", cancelled_at := some now, updated_at := some now } ∈
          (handleSubscriptionCancellation sub now s).rows) ∧
    (∀ r ∈ s.rows, r.stripe_subscription_id ≠ some sub.id →
        r ∈ (handleSubscriptionCancellation sub now s).rows) := by
  have hrows : (handleSubscriptionCancellation sub now s).rows =
      s.rows.map (fun r =>
        if r.stripe_subscription_id == some sub.id then
          { r with status := "cancelled", cancelled_at := some now, updated_at := some now }
        else r) := by
    simp [handleSubscriptionCancellation, hmeta]
  constructor
  · intro r hr hmatch
    rw [hrows]
    refine List.mem_map.mpr ⟨r, hr, ?_⟩
    rw [if_pos (beq_iff_eq.mpr hmatch)]
  · intro r hr hmatch
    rw [hrows]
    refine List.mem_map.mpr ⟨r, hr, ?_⟩
    rw [if_neg (fun hc => hmatch (beq_iff_eq.mp hc))]

/-- Concrete witness for the amended C5: the event now carries metadata for
account `other`, while the matching row belongs to account `u2`; the row is
cancelled anyway (matched by subscription reference, not account id). -/
theorem cancellation_marks_by_subscription_ref_witness :
    ({ stripeBackedRow with
        status := "cancelled"
        cancelled_at := some 3000
        updated_at := some 3000 } ∈
      (handleSubscriptionCancellation
        { sampleSubscriptionEvent with metadata_userId := some "other" } 3000
        { rows := [stripeBackedRow], nextId := 3 }).rows) ∧
    (premiumExpiredRow ∈
      (handleSubscriptionCancellation
        { sampleSubscriptionEvent with metadata_userId := some "other" } 3000
        { rows := [stripeBackedRow, premiumExpiredRow], nextId := 3 }).rows) :=
  ⟨(cancellation_marks_by_subscription_ref _ 3000 { rows := [stripeBackedRow], nextId := 3 }
      "other" rfl).1 stripeBackedRow (by decide) rfl,
   (cancellation_marks_by_subscription_ref _ 3000
      { rows := [stripeBackedRow, premiumExpiredRow], nextId := 3 }
      "other" rfl).2 premiumExpiredRow (by decide) (by decide)⟩

/-- C6: a stored row with `status = cancelled` whose expiry has not yet
passed is reported by the resolver as `status = expired` with
`isPremium = false` — cancellation reads as immediate loss of
entitlement. -/
theorem resolve_cancelled_pending_reports_expired
    (userId : String) (now : Nat) (stripeQ : String → Except Unit StripeSubscription)
    (s : Store) (r : SubscriptionRow) (e : Nat)
    (hfind : s.rows.find? (fun x => x.user_id == userId) = some r)
    (hst : r.status = "cancelled")
    (hexp : r.expires_at = some e) (hfut : now ≤ e) :
    (verifyUserSubscription userId now stripeQ s).1.status = "expired" ∧
    (verifyUserSubscription userId now stripeQ s).1.isPremium = false := by
  have ha : localIsActive r now = false :=
    localIsActive_eq_false r now (Or.inl (by rw [hst]; decide))
  have hres : verifyUserSubscription userId now stripeQ s =
      (subscriptionResult r (localIsActive r now), s) := by
    cases hs : r.stripe_subscription_id with
    | none => simp [verifyUserSubscription, hfind, hs]
    | some sid => simp [verifyUserSubscription, hfind, hs, ha]
  rw [hres, ha]
  exact ⟨rfl, rfl⟩

/-- Concrete witness for C6: row `cancelledPendingRow` is cancelled with
expiry 9000 still ahead at `now = 2000`. -/
theorem resolve_cancelled_pending_reports_expired_witness :
    ((verifyUserSubscription "u3" 2000 failingStripeQ
        { rows := [cancelledPendingRow], nextId := 4 }).1.status = "expired") ∧
    ((verifyUserSubscription "u3" 2000 failingStripeQ
        { rows := [cancelledPendingRow], nextId := 4 }).1.isPremium = false) :=
  resolve_cancelled_pending_reports_expired "u3" 2000 failingStripeQ _ cancelledPendingRow
    9000 rfl rfl rfl (by decide)

/-- C7: with no stored row for the account, the resolver answers
free/active/non-premium and the resulting store holds exactly one row for
that account: the freshly inserted free/active row. -/
theorem resolve_absent_creates_free_record
    (userId : String) (now : Nat) (stripeQ : String → Except Unit StripeSubscription)
    (s : Store)
    (hfind : s.rows.find? (fun r => r.user_id == userId) = none) :
    (verifyUserSubscription userId now stripeQ s).1 = freeSubscriptionStatus ∧
    freeSubscriptionStatus.isPremium = false ∧
    freeSubscriptionStatus.tier = "free" ∧
    freeSubscriptionStatus.status = "active" ∧
    (verifyUserSubscription userId now stripeQ s).2.rows.filter (fun r => r.user_id == userId) =
      [freeSubscriptionRow userId now s.nextId] ∧
    (freeSubscriptionRow userId now s.nextId).tier = "free" ∧
    (freeSubscriptionRow userId now s.nextId).status = "active" := by
  have hres : verifyUserSubscription userId now stripeQ s =
      (freeSubscriptionStatus,
       { rows := s.rows ++ [freeSubscriptionRow userId now s.nextId],
         nextId := s.nextId + 1 }) := by
    simp [verifyUserSubscription, hfind]
  rw [hres]
  refine ⟨rfl, rfl, rfl, rfl, ?_, rfl, rfl⟩
  have h1 : s.rows.filter (fun r => r.user_id == userId) = [] :=
    List.filter_eq_nil_iff.mpr (List.find?_eq_none.mp hfind)
  rw [List.filter_append, h1]
  simp [freeSubscriptionRow]

/-- Concrete witness for C7 on an empty store. -/
theorem resolve_absent_creates_free_record_witness :
    (verifyUserSubscription "u9" 100 failingStripeQ { rows := [], nextId := 0 }).1 =
      freeSubscriptionStatus ∧
    freeSubscriptionStatus.isPremium = false ∧
    freeSubscriptionStatus.tier = "free" ∧
    freeSubscriptionStatus.status = "active" ∧
    (verifyUserSubscription "u9" 100 failingStripeQ
        { rows := [], nextId := 0 }).2.rows.filter (fun r => r.user_id == "u9") =
      [freeSubscriptionRow "u9" 100 0] ∧
    (freeSubscriptionRow "u9" 100 0).tier = "free" ∧
    (freeSubscriptionRow "u9" 100 0).status = "active" :=
  resolve_absent_creates_free_record "u9" 100 failingStripeQ { rows := [], nextId := 0 } rfl

/-- C8: a stored premium/active row whose expiry lies strictly in the past
resolves to `isPremium = false` and `status = expired`, for any provider
oracle (in particular when the row carries no provider subscription
reference, so no provider call could fire). -/
theorem resolve_expired_premium_reports_expired
    (userId : String) (now : Nat) (stripeQ : String → Except Unit StripeSubscription)
    (s : Store) (r : SubscriptionRow) (e : Nat)
    (hfind : s.rows.find? (fun x => x.user_id == userId) = some r)
    (htier : r.tier = "premium") (hst : r.status = "active")
    (hexp : r.expires_at = some e) (hpast : e < now) :
    (verifyUserSubscription userId now stripeQ s).1.isPremium = false ∧
    (verifyUserSubscription userId now stripeQ s).1.status = "expired" := by
  have ha : localIsActive r now = false :=
    localIsActive_eq_false r now (Or.inr ⟨e, hexp, hpast⟩)
  have hres : verifyUserSubscription userId now stripeQ s =
      (subscriptionResult r (localIsActive r now), s) := by
    cases hs : r.stripe_subscription_id with
    | none => simp [verifyUserSubscription, hfind, hs]
    | some sid => simp [verifyUserSubscription, hfind, hs, ha]
  rw [hres, ha]
  exact ⟨rfl, rfl⟩

/-- Concrete witness for C8: `premiumExpiredRow` has no provider
subscription reference and expiry 1000 at `now = 2000`. -/
theorem resolve_expired_premium_reports_expired_witness :
    ((verifyUserSubscription "u1" 2000 failingStripeQ
        { rows := [premiumExpiredRow], nextId := 2 }).1.isPremium = false) ∧
    ((verifyUserSubscription "u1" 2000 failingStripeQ
        { rows := [premiumExpiredRow], nextId := 2 }).1.status = "expired") :=
  resolve_expired_premium_reports_expired "u1" 2000 failingStripeQ _ premiumExpiredRow
    1000 rfl rfl rfl rfl (by decide)

/-- After the admin upsert runs for `userId`, the store holds a row for
`userId` with the admin-granted fields. -/
theorem setupAdmin_find (userId : String) (now : Nat) (s : Store) :
    ∃ r, (setupAdminPremiumSubscription userId now s).rows.find?
        (fun x => x.user_id == userId) = some r ∧
      r.tier = "premium" ∧ r.status = "active" ∧ r.billing_period = some "permanent" ∧
      r.expires_at = none ∧ r.plan_id = some "premium_admin" := by
  unfold setupAdminPremiumSubscription
  cases hf : s.rows.find? (fun x => x.user_id == userId) with
  | none =>
      refine ⟨adminSubscriptionData userId now s.nextId, ?_, rfl, rfl, rfl, rfl, rfl⟩
      rw [List.find?_append, hf]
      simp [adminSubscriptionData]
  | some ex =>
      have hpres : ∀ r : SubscriptionRow,
          (((if r.id == ex.id then
              { r with
                tier := "premium"
                status := "active"
                plan_id := some "premium_admin"
                billing_period := some "permanent"
                expires_at := none
                updated_at := some now }
            else r).user_id == userId)) = (r.user_id == userId) := by
        intro r
        by_cases h : r.id == ex.id <;> simp [h]
      refine ⟨{ ex with
          tier := "premium"
          status := "active"
          plan_id := some "premium_admin"
          billing_period := some "permanent"
          expires_at := none
          updated_at := some now }, ?_, rfl, rfl, rfl, rfl, rfl⟩
      rw [find?_map_of_pred _ _ hpres, hf, Option.map_some']
      rw [if_pos (beq_iff_eq.mpr rfl)]

/-- C9: for an allow-listed admin identity, a first sign-in leaves the
stored row at tier=premium, status=active, billingPeriod=permanent,
expiresAt=null with the sentinel admin plan id, and a second sign-in leaves
tier and billingPeriod (and the rest of the admin grant) unchanged. -/
theorem adminSetup_second_signin_preserves_grant
    (userId : String) (now1 now2 : Nat) (s : Store) :
    ∃ r1 r2,
      (setupAdminPremiumSubscription userId now1 s).rows.find?
          (fun x => x.user_id == userId) = some r1 ∧
      (setupAdminPremiumSubscription userId now2
          (setupAdminPremiumSubscription userId now1 s)).rows.find?
          (fun x => x.user_id == userId) = some r2 ∧
      r1.tier = "premium" ∧ r1.status = "active" ∧ r1.billing_period = some "permanent" ∧
      r1.expires_at = none ∧ r1.plan_id = some "premium_admin" ∧
      r2.tier = r1.tier ∧ r2.billing_period = r1.billing_period ∧
      r2.status = "active" ∧ r2.expires_at = none ∧ r2.plan_id = some "premium_admin" := by
  obtain ⟨r1, h1, ht1, hs1, hb1, he1, hp1⟩ := setupAdmin_find userId now1 s
  obtain ⟨r2, h2, ht2, hs2, hb2, he2, hp2⟩ :=
    setupAdmin_find userId now2 (setupAdminPremiumSubscription userId now1 s)
  exact ⟨r1, r2, h1, h2, ht1, hs1, hb1, he1, hp1,
    ht2.trans ht1.symm, hb2.trans hb1.symm, hs2, he2, hp2⟩

/-- C10: a paid session that is not a subscription-mode session with an
attached subscription object makes `verifyPayment` report completion while
leaving the subscription store untouched. -/
theorem verifyPayment_paid_without_subscription_no_mutation
    (session : CheckoutSession) (userId : String) (now : Nat) (s : Store)
    (hown : session.client_reference_id = some userId)
    (hpaid : session.payment_status = "paid")
    (hnosub : session.mode ≠ "subscription" ∨ session.subscription = none) :
    (verifyPayment session userId now s).2 = s ∧
    ∃ res, (verifyPayment session userId now s).1 = Except.ok res ∧
      res.status = "completed" := by
  have hres : verifyPayment session userId now s =
      (Except.ok
        { status := "completed"
          planId := session.metadata_planId
          subscriptionId := session.subscription.map (fun ss => ss.id)
          customerEmail := session.customer_email
          amountTotal := session.amount_total.map (fun a => (a : Rat) / 100)
          paymentStatus := none
          message := none }, s) := by
    rcases hnosub with hm | hsub
    · simp [verifyPayment, hown, hpaid, beq_eq_false_iff_ne.mpr hm]
    · cases hmm : session.mode == "subscription" <;>
        simp [verifyPayment, hown, hpaid, hsub, hmm]
  rw [hres]
  exact ⟨rfl, _, rfl, rfl⟩

/-- Concrete witness for C10: a paid payment-mode session for the right
account completes without touching the stored premium row. -/
theorem verifyPayment_paid_without_subscription_no_mutation_witness :
    ((verifyPayment paidNonSubscriptionSession "u1" 0
        { rows := [premiumExpiredRow], nextId := 2 }).2 =
      { rows := [premiumExpiredRow], nextId := 2 }) ∧
    ∃ res, (verifyPayment paidNonSubscriptionSession "u1" 0
        { rows := [premiumExpiredRow], nextId := 2 }).1 = Except.ok res ∧
      res.status = "completed" :=
  verifyPayment_paid_without_subscription_no_mutation paidNonSubscriptionSession "u1" 0
    { rows := [premiumExpiredRow], nextId := 2 } rfl rfl (Or.inl (by decide))
